import Mathlib

/-!
Verification development for the batch-execution, correlation-resumption,
worker-lifecycle and health-check handlers of `state-machine-amz-gin`.

The handlers are embedded shallowly: each gin handler becomes a pure Lean
function from an environment (the values its collaborators would return:
repository lookups, the state-machine load, the dispatcher's per-item
results, the queue client's presence) to a result record carrying the HTTP
outcome together with a trace of which collaborator calls were made.
Machine integers (`int`, `int64`) are modelled as `Int`; Go strings as
`String`; nilable pointers as `Option`.
-/

namespace SMGin

/-- Per-item result returned by the batch dispatcher; the handler inspects
only its `Error` field (`src/unnamed/part_001`, lines 139–145).  `none`
models a nil error. -/
structure PerItemResult (E : Type) where
  error : Option E

/-- One step of the counting loop of `ExecuteBatch`
(`src/unnamed/part_001`, lines 139–145): a result with nil error increments
`totalEnqueued`, any other increments `totalFailed`. -/
def countStep {E : Type} (acc : Nat × Nat) (result : PerItemResult E) : Nat × Nat :=
  match result.error with
  | none => (acc.1 + 1, acc.2)
  | some _ => (acc.1, acc.2 + 1)

/-- The counting loop of `ExecuteBatch` (`src/unnamed/part_001`, lines
136–145): fold `countStep` over the per-item results starting from
`totalEnqueued = 0`, `totalFailed = 0`. -/
def countBatchResults {E : Type} (results : List (PerItemResult E)) : Nat × Nat :=
  results.foldl countStep (0, 0)

/-- The filter object of `ExecuteBatchRequest` (`models.ExecutionFilterRequest`
as the handler in `src/unnamed/part_001` reads it: `SourceStateMachineId`,
`Status`, numeric bounds, plus `SourceStateName`, `SourceInputTransformer`
and `ApplyUnique`). -/
structure ExecutionFilterRequest where
  sourceStateMachineId : String
  status : String
  startTimeFrom : Int
  startTimeTo : Int
  limit : Int
  offset : Int
  sourceStateName : String
  sourceInputTransformer : String
  applyUnique : Bool
  deriving DecidableEq

/-- The normalized `repository.ExecutionFilter` as the handler populates it.
A field is `none` exactly when the corresponding guarded assignment in
`src/unnamed/part_001` lines 57–87 does not run, i.e. the Go field keeps its
zero value (for the time bounds, the zero `time.Time`, which is distinct
from `time.Unix(0, 0)`). Time bounds are recorded as the epoch seconds
passed to `time.Unix`. -/
structure ExecutionFilter where
  stateMachineID : String
  status : Option String
  limit : Option Int
  offset : Option Int
  startAfter : Option Int
  startBefore : Option Int
  deriving DecidableEq

/-- The filter-building block of `ExecuteBatch` (`src/unnamed/part_001`,
lines 57–87): `nil` request filter yields no filter; otherwise the source
definition id falls back to the handler's own `stateMachineID`, and each
zero-valued field is left unassigned. -/
def buildSourceExecutionFilter (stateMachineID : String)
    (reqFilter : Option ExecutionFilterRequest) : Option ExecutionFilter :=
  match reqFilter with
  | none => none
  | some f =>
    some
      { stateMachineID :=
          if f.sourceStateMachineId ≠ "" then f.sourceStateMachineId else stateMachineID,
        status := if f.status ≠ "" then some f.status else none,
        limit := if f.limit ≠ 0 then some f.limit else none,
        offset := if f.offset ≠ 0 then some f.offset else none,
        startAfter := if f.startTimeFrom ≠ 0 then some f.startTimeFrom else none,
        startBefore := if f.startTimeTo ≠ 0 then some f.startTimeTo else none }

/-- `statemachine.ExecutionOption` values the handler can append
(`src/unnamed/part_001`, lines 112–123). `F` is the type of transformer
functions, kept abstract. -/
inductive ExecutionOption (F : Type) where
  | withUniqueness (flag : Bool)
  | withInputTransformerName (name : String)
  | withInputTransformer (transformer : F)
  deriving DecidableEq

/-- The execution-option composition of `ExecuteBatch`
(`src/unnamed/part_001`, lines 109–123): append a uniqueness option when
`applyUnique` is set, then, when the registry lookup yields a function,
append the provenance option and the transform option in that order. A
missing registry entry (`transformerFunc == nil`) appends nothing. -/
def composeExecOpts {F : Type} (transformerRegistry : String → Option F)
    (applyUnique : Bool) (sourceInputTransformer : String) :
    List (ExecutionOption F) :=
  let execOpts :=
    if applyUnique then [ExecutionOption.withUniqueness applyUnique] else []
  match transformerRegistry sourceInputTransformer with
  | some transformerFunc =>
      execOpts ++
        [ExecutionOption.withInputTransformerName sourceInputTransformer,
         ExecutionOption.withInputTransformer transformerFunc]
  | none => execOpts

/-- `statemachine.BatchExecutionOptions` as built by the handler
(`src/unnamed/part_001`, lines 97–103). -/
structure BatchExecutionOptions where
  namePrefix : String
  concurrentBatches : Int
  stopOnError : Bool
  deriving DecidableEq

/-- `models.ExecuteBatchRequest` (the fields the handler reads). -/
structure ExecuteBatchRequest where
  filter : Option ExecutionFilterRequest
  namePrefix : String
  concurrency : Int
  mode : String
  stopOnError : Bool
  deriving DecidableEq

/-- `models.BatchExecutionResponse` (`src/models/responses.go`). -/
structure BatchExecutionResponse where
  batchID : String
  totalEnqueued : Nat
  totalFailed : Nat
  mode : String
  deriving DecidableEq

/-- The observable outcome of the `ExecuteBatch` handler: a JSON error
response, the success response, or a Go panic escaping the handler. -/
inductive BatchOutcome where
  | errorResp (status : Nat) (error : String)
  | ok (resp : BatchExecutionResponse)
  | panicked
  deriving DecidableEq

/-- Result of one run of the `ExecuteBatch` handler: the outcome plus a
trace of the collaborator effects (whether `SetQueueClient` ran, and the
options `sm.ExecuteBatch` was invoked with — `none` when the dispatch call
was never reached). -/
structure BatchResult (F : Type) where
  outcome : BatchOutcome
  queueClientSet : Bool
  dispatchedOpts : Option BatchExecutionOptions
  dispatchedExecOpts : Option (List (ExecutionOption F))

/-- Environment of one `ExecuteBatch` request: what the middleware and the
collaborators would return. `dispatch` is the underlying
`sm.ExecuteBatch` call, abstract: given the filter, source state name,
batch options and execution options it yields a per-item result list or a
batch-level error. `now1` and `now2` are the two `time.Now().Unix()`
readings (lines 91 and 147). -/
structure BatchEnv (F E : Type) where
  repoConfigured : Bool
  hasQueue : Bool
  stateMachineID : String
  bindOk : Bool
  smFound : Bool
  transformerRegistry : String → Option F
  now1 : Int
  now2 : Int
  dispatch : Option ExecutionFilter → String → BatchExecutionOptions →
    List (ExecutionOption F) → Except String (List (PerItemResult E))

/-- The `NamePrefix` defaulting of `ExecuteBatch` (`src/unnamed/part_001`,
lines 90–92): an empty prefix becomes `batch-<unix timestamp>`. -/
def effectiveNamePrefix (now1 : Int) (p : String) : String :=
  if p = "" then "batch-" ++ toString now1 else p

/-- The `Concurrency` defaulting of `ExecuteBatch` (`src/unnamed/part_001`,
lines 93–95): zero becomes 10, any other value passes through. -/
def effectiveConcurrency (c : Int) : Int :=
  if c = 0 then 10 else c

/-- The batch options built at `src/unnamed/part_001`, lines 97–103, after
the defaulting of lines 89–95. -/
def mkBatchOpts {F E : Type} (env : BatchEnv F E) (req : ExecuteBatchRequest) :
    BatchExecutionOptions :=
  { namePrefix := effectiveNamePrefix env.now1 req.namePrefix,
    concurrentBatches := effectiveConcurrency req.concurrency,
    stopOnError := req.stopOnError }

/-- The `ExecuteBatch` handler (`src/unnamed/part_001`, lines 17–155),
embedded step for step: the guard responses, the queue-client wiring, the
filter building, the defaulting, the unguarded `req.Filter.SourceStateName`
dereference at line 105 (a nil-pointer panic when the request has no filter
object), the option composition, the dispatch, and the counting plus batch
id of the success response. -/
def ExecuteBatch {F E : Type} (env : BatchEnv F E) (req : ExecuteBatchRequest) :
    BatchResult F :=
  if !env.repoConfigured then
    { outcome := .errorResp 500 "Repository manager not configured",
      queueClientSet := false, dispatchedOpts := none, dispatchedExecOpts := none }
  else if !env.bindOk then
    { outcome := .errorResp 400 "Invalid request",
      queueClientSet := false, dispatchedOpts := none, dispatchedExecOpts := none }
  else if !env.smFound then
    { outcome := .errorResp 404 "State machine not found",
      queueClientSet := false, dispatchedOpts := none, dispatchedExecOpts := none }
  else
    let queueClientSet := env.hasQueue && req.mode == "distributed"
    let sourceExecutionFilter := buildSourceExecutionFilter env.stateMachineID req.filter
    let batchOpts := mkBatchOpts env req
    match req.filter with
    | none =>
        { outcome := .panicked, queueClientSet := queueClientSet,
          dispatchedOpts := none, dispatchedExecOpts := none }
    | some f =>
        let execOpts :=
          composeExecOpts env.transformerRegistry f.applyUnique f.sourceInputTransformer
        match env.dispatch sourceExecutionFilter f.sourceStateName batchOpts execOpts with
        | .error _ =>
            { outcome := .errorResp 500 "Batch execution failed",
              queueClientSet := queueClientSet,
              dispatchedOpts := some batchOpts, dispatchedExecOpts := some execOpts }
        | .ok results =>
            { outcome := .ok
                { batchID := batchOpts.namePrefix ++ "-" ++ toString env.now2,
                  totalEnqueued := (countBatchResults results).1,
                  totalFailed := (countBatchResults results).2,
                  mode := req.mode },
              queueClientSet := queueClientSet,
              dispatchedOpts := some batchOpts, dispatchedExecOpts := some execOpts }

/-- The `ErrorHandler` middleware (`src/unnamed/part_004`, lines 66–80): a
panic escaping the handler is recovered and turned into an HTTP 500
`Internal Server Error` response; any ordinary outcome passes through. -/
def ErrorHandler (outcome : BatchOutcome) : BatchOutcome :=
  match outcome with
  | .panicked => .errorResp 500 "Internal Server Error"
  | o => o

/-- An execution record as the handlers read it (the fields of
`repository`'s record used for control flow and responses). -/
structure ExecRecord where
  executionID : String
  stateMachineID : String
  name : String
  status : String
  currentState : String
  deriving DecidableEq

/-- Modelled from the spec: `sm.ExecuteBatch` — the Batch Dispatcher of the
underlying `state-machine-amz-go` engine, which is not part of this
repository — returns, for `stopOnError = false`, one per-item result per
matched source record (spec §4.3 steps 2–6), and hence an empty result
list for a filter matching zero records. `run` gives each record's
per-item error, `none` meaning success. -/
def dispatchBatch {E : Type} (matched : List ExecRecord) (run : ExecRecord → Option E) :
    List (PerItemResult E) :=
  matched.map (fun record => { error := run record })

/-- Outcome of the `ResumeExecution` handler. -/
inductive ResumeOutcome where
  | errorResp (status : Nat) (error : String)
  | ok (record : ExecRecord)
  deriving DecidableEq

/-- Result of one run of `ResumeExecution`: the outcome plus whether
`persistent.NewFromDefnId` (the state-machine load) and
`sm.ResumeExecution` were invoked. -/
structure ResumeResult where
  outcome : ResumeOutcome
  loadAttempted : Bool
  resumeCalled : Bool
  deriving DecidableEq

/-- Environment of one `ResumeExecution` request: middleware presence, JSON
binding, the `GetExecution` lookup, the state-machine load, and the result
the engine's resume call would return. -/
structure ResumeEnv where
  repoConfigured : Bool
  bindOk : Bool
  getExecution : Except String ExecRecord
  smFound : Bool
  resumeResult : Except String ExecRecord

/-- The `ResumeExecution` handler (`src/unnamed/part_000`, lines 337–426),
embedded step for step: repository guard, binding guard, execution lookup,
the PAUSED status check (before any state-machine load or resume call),
then load, resume, and the success response. -/
def ResumeExecution (env : ResumeEnv) : ResumeResult :=
  if !env.repoConfigured then
    { outcome := .errorResp 500 "Repository manager not configured",
      loadAttempted := false, resumeCalled := false }
  else if !env.bindOk then
    { outcome := .errorResp 400 "Invalid request",
      loadAttempted := false, resumeCalled := false }
  else
    match env.getExecution with
    | .error _ =>
        { outcome := .errorResp 404 "Execution not found",
          loadAttempted := false, resumeCalled := false }
    | .ok record =>
        if record.status ≠ "PAUSED" then
          { outcome := .errorResp 400 "Execution is not paused",
            loadAttempted := false, resumeCalled := false }
        else if !env.smFound then
          { outcome := .errorResp 404 "State machine not found",
            loadAttempted := true, resumeCalled := false }
        else
          match env.resumeResult with
          | .error _ =>
              { outcome := .errorResp 500 "Failed to resume execution",
                loadAttempted := true, resumeCalled := true }
          | .ok result =>
              { outcome := .ok result, loadAttempted := true, resumeCalled := true }

/-- Outcome of the `ResumeByCorrelation` handler. -/
inductive CorrOutcome where
  | errorResp (status : Nat) (error : String)
  | ok (resumedCount : Nat) (executionIDs : List String)
  deriving DecidableEq

/-- Result of one run of `ResumeByCorrelation`: the outcome plus how many
per-match `sm.ResumeExecution` calls were made. -/
structure CorrResult where
  outcome : CorrOutcome
  resumeAttempts : Nat
  deriving DecidableEq

/-- Environment of one `ResumeByCorrelation` request. `findResult` is what
`FindWaitingExecutionsByCorrelation` returns; `resume` gives, for each
record, the error of its `sm.ResumeExecution` call (`none` = success). -/
structure CorrEnv where
  repoConfigured : Bool
  bindOk : Bool
  smFound : Bool
  findResult : Except String (List ExecRecord)
  resume : ExecRecord → Option String

/-- The per-match loop of `ResumeByCorrelation` (`src/unnamed/part_000`,
lines 486–504): every record is attempted, and a record's execution id is
appended exactly when its resume call returns a nil error. -/
def resumeMatches (resume : ExecRecord → Option String) :
    List ExecRecord → List String
  | [] => []
  | record :: rest =>
    match resume record with
    | none => record.executionID :: resumeMatches resume rest
    | some _ => resumeMatches resume rest

/-- The `ResumeByCorrelation` handler (`src/unnamed/part_000`, lines
429–510), embedded step for step: repository guard, binding guard,
state-machine load, correlation scan, the zero-match NotFound, then the
per-match resume loop and the count response. -/
def ResumeByCorrelation (env : CorrEnv) : CorrResult :=
  if !env.repoConfigured then
    { outcome := .errorResp 500 "Repository manager not configured", resumeAttempts := 0 }
  else if !env.bindOk then
    { outcome := .errorResp 400 "Invalid request", resumeAttempts := 0 }
  else if !env.smFound then
    { outcome := .errorResp 404 "State machine not found", resumeAttempts := 0 }
  else
    match env.findResult with
    | .error _ =>
        { outcome := .errorResp 500 "Failed to find waiting executions", resumeAttempts := 0 }
    | .ok waitingExecutions =>
      if waitingExecutions.length = 0 then
        { outcome := .errorResp 404 "No waiting executions found", resumeAttempts := 0 }
      else
        let resumedIDs := resumeMatches env.resume waitingExecutions
        { outcome := .ok resumedIDs.length resumedIDs,
          resumeAttempts := waitingExecutions.length }

/-- Environment of one `HealthCheck` request: middleware presence and the
result of the `ListStateMachines` probe. -/
structure HealthEnv where
  hasRepo : Bool
  listStateMachinesOk : Bool
  hasQueue : Bool
  deriving DecidableEq

/-- The `HealthCheck` response: HTTP status code, overall status, and the
two entries of the services map. -/
structure HealthResult where
  statusCode : Nat
  status : String
  database : String
  queue : String
  deriving DecidableEq

/-- The `HealthCheck` handler (`src/handlers/monitoring.go`, lines 12–56):
the database entry comes from the list-state-machines probe (or
`not_configured`), a configured queue is reported `up` without any probe,
and the overall status is `unhealthy` (HTTP 503) exactly when some entry of
the services map is `down`. -/
def HealthCheck (env : HealthEnv) : HealthResult :=
  let database :=
    if env.hasRepo then (if env.listStateMachinesOk then "up" else "down")
    else "not_configured"
  let queue := if env.hasQueue then "up" else "not_configured"
  let status := if database = "down" ∨ queue = "down" then "unhealthy" else "healthy"
  { statusCode := if status = "unhealthy" then 503 else 200,
    status := status, database := database, queue := queue }

/-- Phase of the background queue worker. Modelled from the spec: §4.4
gives the worker the states stopped (initial) and running, with
shutting-down a transient passage of `stop()`. -/
inductive WorkerPhase where
  | stopped
  | running
  deriving DecidableEq

/-- Modelled from the spec: the underlying `queue.Worker` of
`state-machine-amz-go` (not part of this repository), reduced to the state
§4.4 describes — its phase and the number of in-flight tasks. -/
structure QueueWorker where
  phase : WorkerPhase
  inFlight : Nat
  deriving DecidableEq

/-- The middleware `Worker` (`src/unnamed/part_004`, lines 121–126): a
wrapper holding a possibly-nil queue worker. A nil `*Worker` pointer is
modelled as `none` at the use sites. -/
structure Worker where
  queueWorker : Option QueueWorker
  deriving DecidableEq

/-- `middleware.WorkerConfig` (`src/unnamed/part_004`, lines 113–119),
reduced to the presence of each collaborator and the enable flag — exactly
what `NewWorker`'s guards read. -/
structure WorkerConfig where
  enableWorker : Bool
  hasQueueConfig : Bool
  hasRepositoryManager : Bool
  hasBaseExecutor : Bool
  deriving DecidableEq

/-- `NewWorker` (`src/unnamed/part_004`, lines 129–175): a nil config,
a disabled worker, or any absent collaborator yields a nil worker (with a
nil error); otherwise a worker wrapping a fresh stopped queue worker. -/
def NewWorker (config : Option WorkerConfig) : Option Worker :=
  match config with
  | none => none
  | some cfg =>
    if !cfg.enableWorker then none
    else if !cfg.hasQueueConfig then none
    else if !cfg.hasRepositoryManager then none
    else if !cfg.hasBaseExecutor then none
    else some { queueWorker := some { phase := WorkerPhase.stopped, inFlight := 0 } }

/-- `Worker.Start` (`src/unnamed/part_004`, lines 178–194): a nil worker or
nil queue worker is a no-op; otherwise the queue worker is set running.
Modelled from the spec for the running transition (§4.4: `start()` moves
stopped→running, idempotent). The returned `Option String` is the Go
error, which is nil on every path. -/
def WorkerStart (w : Option Worker) : Option Worker × Option String :=
  match w with
  | none => (none, none)
  | some worker =>
    match worker.queueWorker with
    | none => (some worker, none)
    | some qw =>
        (some { queueWorker := some { qw with phase := WorkerPhase.running } }, none)

/-- `Worker.Stop` (`src/unnamed/part_004`, lines 197–206): a nil worker or
nil queue worker is a no-op; otherwise the shutdown drains the in-flight
tasks and leaves the queue worker stopped. Modelled from the spec for the
drain (§4.4: `stop()` blocks until in-flight tasks finish, then the worker
is stopped; on a never-started worker it is a no-op). -/
def WorkerStop (w : Option Worker) : Option Worker :=
  match w with
  | none => none
  | some worker =>
    match worker.queueWorker with
    | none => some worker
    | some _ =>
        some { queueWorker := some { phase := WorkerPhase.stopped, inFlight := 0 } }

/-- Concrete filter request with an explicit source override and every
numeric field zero. -/
def filterReqPlain : ExecutionFilterRequest :=
  { sourceStateMachineId := "", status := "", startTimeFrom := 0,
    startTimeTo := 0, limit := 0, offset := 0, sourceStateName := "",
    sourceInputTransformer := "", applyUnique := false }

/-- Concrete filter request overriding the source definition id. -/
def filterReqSrc : ExecutionFilterRequest :=
  { filterReqPlain with sourceStateMachineId := "src" }

/-- The filter `buildSourceExecutionFilter` produces for `filterReqSrc`. -/
def filterBuiltSrc : ExecutionFilter :=
  { stateMachineID := "src", status := none, limit := none, offset := none,
    startAfter := none, startBefore := none }

/-- Concrete environment for `ExecuteBatch` runs in which every guard
passes: the dispatcher returns one successful and one failed per-item
result. -/
def batchEnvOk : BatchEnv Nat String :=
  { repoConfigured := true, hasQueue := false, stateMachineID := "sm-1",
    bindOk := true, smFound := true, transformerRegistry := fun _ => none,
    now1 := 100, now2 := 200,
    dispatch := fun _ _ _ _ =>
      Except.ok [{ error := none }, { error := some "boom" }] }

/-- Concrete batch request with a plain filter, an explicit name prefix,
and the zero concurrency a body omitting the field binds. -/
def batchReqOk : ExecuteBatchRequest :=
  { filter := some filterReqPlain, namePrefix := "p", concurrency := 0,
    mode := "", stopOnError := false }

/-- Concrete batch request whose JSON body omitted the filter object. -/
def batchReqNoFilter : ExecuteBatchRequest :=
  { filter := none, namePrefix := "", concurrency := 0, mode := "",
    stopOnError := false }

/-- Concrete environment for the negative-concurrency run of
`ExecuteBatch`: every guard passes and the dispatcher accepts the batch. -/
def batchEnvNeg : BatchEnv Nat String :=
  { repoConfigured := true, hasQueue := false, stateMachineID := "sm-1",
    bindOk := true, smFound := true, transformerRegistry := fun _ => none,
    now1 := 100, now2 := 200, dispatch := fun _ _ _ _ => Except.ok [] }

/-- Concrete request with `concurrency = -1`, as a JSON body
`{"concurrency": -1, ...}` binds it. -/
def batchReqNeg : ExecuteBatchRequest :=
  { filter := some filterReqPlain,
    namePrefix := "p", concurrency := -1, mode := "", stopOnError := false }

/-- Concrete transformer registry holding one entry, `t1`. -/
def registryT : String → Option Nat :=
  fun name => if name = "t1" then some 7 else none

/-- Concrete paused execution record. -/
def recA : ExecRecord :=
  { executionID := "e1", stateMachineID := "sm-1", name := "a",
    status := "PAUSED", currentState := "wait" }

/-- Concrete paused execution record whose resume call will fail. -/
def recB : ExecRecord :=
  { executionID := "e2", stateMachineID := "sm-1", name := "b",
    status := "PAUSED", currentState := "wait" }

/-- Concrete correlation environment: two waiting executions, the second
of which fails to resume. -/
def corrEnvTwo : CorrEnv :=
  { repoConfigured := true, bindOk := true, smFound := true,
    findResult := Except.ok [recA, recB],
    resume := fun r => if r.executionID = "e1" then none else some "resume failed" }

/-- Concrete correlation environment whose scan finds zero waiting
executions. -/
def corrEnvNone : CorrEnv :=
  { repoConfigured := true, bindOk := true, smFound := true,
    findResult := Except.ok [], resume := fun _ => none }

/-- Concrete correlation environment whose target definition is missing. -/
def corrEnvNoSm : CorrEnv :=
  { repoConfigured := true, bindOk := true, smFound := false,
    findResult := Except.ok [], resume := fun _ => none }

/-- Concrete worker configuration with every collaborator present. -/
def cfgAll : WorkerConfig :=
  { enableWorker := true, hasQueueConfig := true,
    hasRepositoryManager := true, hasBaseExecutor := true }

/-- Concrete queue worker with three in-flight tasks. -/
def qwRun3 : QueueWorker := { phase := WorkerPhase.running, inFlight := 3 }

/-- Concrete non-nil middleware worker wrapping `qwRun3`. -/
def workerRun3 : Option Worker := some { queueWorker := some qwRun3 }

/-- Unfolding the counting fold from an arbitrary accumulator: it adds the
number of nil-error results to the first component and the number of
errored results to the second. -/
theorem countFoldl_eq {E : Type} :
    ∀ (results : List (PerItemResult E)) (acc : Nat × Nat),
      results.foldl countStep acc =
        (acc.1 + results.countP (fun r => r.error.isNone),
         acc.2 + results.countP (fun r => r.error.isSome))
  | [], acc => by simp
  | r :: rest, acc => by
      rw [List.foldl_cons, countFoldl_eq rest (countStep acc r)]
      cases h : r.error <;> simp [countStep, h, List.countP_cons] <;> omega

/-- The counting loop returns exactly (number of nil-error results, number
of errored results). -/
theorem countBatchResults_eq {E : Type} (results : List (PerItemResult E)) :
    countBatchResults results =
      (results.countP (fun r => r.error.isNone),
       results.countP (fun r => r.error.isSome)) := by
  simp [countBatchResults, countFoldl_eq]

/-- The two counters partition the result list. -/
theorem countBatchResults_sum {E : Type} :
    ∀ results : List (PerItemResult E),
      (countBatchResults results).1 + (countBatchResults results).2 = results.length
  | [] => by simp [countBatchResults]
  | r :: rest => by
      have ih := countBatchResults_sum rest
      rw [countBatchResults_eq] at ih ⊢
      cases h : r.error <;> simp [List.countP_cons, h] <;> omega

/-- The resumed-id list counts exactly the records whose resume call
returned a nil error. -/
theorem resumeMatches_length (resume : ExecRecord → Option String) :
    ∀ ws : List ExecRecord,
      (resumeMatches resume ws).length = ws.countP (fun r => (resume r).isNone)
  | [] => by simp [resumeMatches]
  | r :: rest => by
      cases h : resume r <;>
        simp [resumeMatches, h, List.countP_cons, resumeMatches_length resume rest]

/-- C1: the `ExecuteBatch` handler counts each per-item result with nil
error as enqueued and each errored one as failed, so
`totalEnqueued + totalFailed` equals the number of per-item results; under
the dispatcher contract (`dispatchBatch`) a filter matching zero records
yields `enqueued = 0`, `failed = 0`, and with `stopOnError = false` the
two counters sum to the number of matched source records. -/
theorem ExecuteBatch_counts_partition :
    (∀ (E : Type) (results : List (PerItemResult E)),
        countBatchResults results =
          (results.countP (fun r => r.error.isNone),
           results.countP (fun r => r.error.isSome))
        ∧ (countBatchResults results).1 + (countBatchResults results).2 = results.length)
    ∧ (∀ (env : BatchEnv Nat String) (req : ExecuteBatchRequest)
          (f : ExecutionFilterRequest) (results : List (PerItemResult String)),
        env.repoConfigured = true → env.bindOk = true → env.smFound = true →
        req.filter = some f →
        env.dispatch (buildSourceExecutionFilter env.stateMachineID (some f))
            f.sourceStateName (mkBatchOpts env req)
            (composeExecOpts env.transformerRegistry f.applyUnique f.sourceInputTransformer)
          = Except.ok results →
        (ExecuteBatch env req).outcome = BatchOutcome.ok
          { batchID := (mkBatchOpts env req).namePrefix ++ "-" ++ toString env.now2,
            totalEnqueued := (countBatchResults results).1,
            totalFailed := (countBatchResults results).2,
            mode := req.mode }
        ∧ (countBatchResults results).1 + (countBatchResults results).2 = results.length)
    ∧ (∀ (E : Type) (run : ExecRecord → Option E),
        countBatchResults (dispatchBatch [] run) = (0, 0))
    ∧ (∀ (E : Type) (run : ExecRecord → Option E) (matched : List ExecRecord),
        (countBatchResults (dispatchBatch matched run)).1 +
          (countBatchResults (dispatchBatch matched run)).2 = matched.length) := by
  refine ⟨fun E results => ⟨countBatchResults_eq results, countBatchResults_sum results⟩,
    ?_, ?_, ?_⟩
  · intro env req f results hrepo hbind hsm hf hd
    refine ⟨?_, countBatchResults_sum results⟩
    simp only [ExecuteBatch, hrepo, hbind, hsm, hf, Bool.not_true, Bool.false_eq_true,
      if_false, hd]
  · intro E run
    simp [dispatchBatch, countBatchResults]
  · intro E run matched
    rw [show dispatchBatch matched run =
        (dispatchBatch matched run : List (PerItemResult E)) from rfl,
      countBatchResults_sum (dispatchBatch matched run)]
    simp [dispatchBatch]

/-- C1 witness: a concrete batch whose dispatcher returns one success and
one failure yields `totalEnqueued = 1`, `totalFailed = 1`. -/
theorem ExecuteBatch_counts_partition_witness :
    (ExecuteBatch batchEnvOk batchReqOk).outcome = BatchOutcome.ok
      { batchID := "p-200", totalEnqueued := 1, totalFailed := 1, mode := "" } := by
  have h := (ExecuteBatch_counts_partition.2.1 batchEnvOk batchReqOk filterReqPlain
    [{ error := none }, { error := some "boom" }] rfl rfl rfl rfl rfl).1
  rw [h]
  decide

/-- C2: the execution-option list appends a uniqueness option when
`applyUnique` is set; a transformer name resolving in the registry appends
the provenance option then the transform option, in that order; an
unresolved name appends nothing, raises no error, and the whole batch run
is identical to one with no transformer requested. -/
theorem composeExecOpts_spec :
    (∀ (F : Type) (registry : String → Option F) (u : Bool) (name : String) (fn : F),
        registry name = some fn →
        composeExecOpts registry u name =
          (if u then [ExecutionOption.withUniqueness true] else []) ++
            [ExecutionOption.withInputTransformerName name,
             ExecutionOption.withInputTransformer fn])
    ∧ (∀ (F : Type) (registry : String → Option F) (u : Bool) (name : String),
        registry name = none →
        composeExecOpts registry u name =
          (if u then [ExecutionOption.withUniqueness true] else []))
    ∧ (∀ (env : BatchEnv Nat String) (req : ExecuteBatchRequest) (f : ExecutionFilterRequest),
        req.filter = some f →
        env.transformerRegistry f.sourceInputTransformer = none →
        env.transformerRegistry "" = none →
        ExecuteBatch env req =
          ExecuteBatch env
            { req with filter := some { f with sourceInputTransformer := "" } }) := by
  refine ⟨?_, ?_, ?_⟩
  · intro F registry u name fn h
    cases u <;> simp [composeExecOpts, h]
  · intro F registry u name h
    cases u <;> simp [composeExecOpts, h]
  · intro env req f hf h1 h2
    simp [ExecuteBatch, hf, composeExecOpts, h1, h2, buildSourceExecutionFilter,
      mkBatchOpts]

/-- C2 witness: with a registry holding `t1`, a batch requesting `t1` with
uniqueness gets the three options in order. -/
theorem composeExecOpts_spec_witness :
    composeExecOpts registryT true "t1" =
      [ExecutionOption.withUniqueness true,
       ExecutionOption.withInputTransformerName "t1",
       ExecutionOption.withInputTransformer 7] := by
  have h := composeExecOpts_spec.1 Nat registryT true "t1" 7 (by decide)
  simpa using h

/-- C5: the normalized filter uses the explicit source-definition override
when supplied, defaults to the batch's target definition id otherwise, and
every zero-valued numeric field is left unset rather than passed through
as literal zero. -/
theorem buildSourceExecutionFilter_spec (smId : String) (f : ExecutionFilterRequest)
    (flt : ExecutionFilter) :
    buildSourceExecutionFilter smId (some f) = some flt →
    (flt.stateMachineID =
        if f.sourceStateMachineId ≠ "" then f.sourceStateMachineId else smId)
    ∧ (f.limit = 0 → flt.limit = none)
    ∧ (f.offset = 0 → flt.offset = none)
    ∧ (f.startTimeFrom = 0 → flt.startAfter = none)
    ∧ (f.startTimeTo = 0 → flt.startBefore = none) := by
  intro h
  simp only [buildSourceExecutionFilter, Option.some.injEq] at h
  subst h
  refine ⟨rfl, ?_, ?_, ?_, ?_⟩ <;> intro h0 <;> simp [h0]

/-- C5 witness: a filter request overriding the source definition with
`src` and leaving every numeric field zero yields a filter on `src` with
all numeric bounds unset. -/
theorem buildSourceExecutionFilter_spec_witness :
    filterBuiltSrc.stateMachineID = "src" ∧ filterBuiltSrc.limit = none
      ∧ filterBuiltSrc.offset = none ∧ filterBuiltSrc.startAfter = none
      ∧ filterBuiltSrc.startBefore = none := by
  obtain ⟨h1, h2, h3, h4, h5⟩ :=
    buildSourceExecutionFilter_spec "tgt" filterReqSrc filterBuiltSrc (by decide)
  exact ⟨by simpa using h1, h2 rfl, h3 rfl, h4 rfl, h5 rfl⟩

/-- C3: `ResumeExecution` on a record whose status is not PAUSED returns
the StateConflict response (HTTP 400, `Execution is not paused`) without
loading the state machine or invoking the resume operation. -/
theorem ResumeExecution_not_paused (env : ResumeEnv) (record : ExecRecord) :
    env.repoConfigured = true → env.bindOk = true →
    env.getExecution = Except.ok record → record.status ≠ "PAUSED" →
    ResumeExecution env =
      { outcome := ResumeOutcome.errorResp 400 "Execution is not paused",
        loadAttempted := false, resumeCalled := false } := by
  intro hrepo hbind hget hstatus
  simp [ResumeExecution, hrepo, hbind, hget, hstatus]

/-- C3 witness: resuming a RUNNING execution is rejected with HTTP 400 and
no collaborator call past the lookup. -/
theorem ResumeExecution_not_paused_witness :
    ResumeExecution
      { repoConfigured := true, bindOk := true,
        getExecution := Except.ok
          { executionID := "e9", stateMachineID := "sm-1", name := "n",
            status := "RUNNING", currentState := "s" },
        smFound := true, resumeResult := Except.error "unused" } =
      { outcome := ResumeOutcome.errorResp 400 "Execution is not paused",
        loadAttempted := false, resumeCalled := false } :=
  ResumeExecution_not_paused _ _ rfl rfl rfl (by decide)

/-- C4: for a correlation scan finding a non-empty match list, every match
is attempted, a failed resume is excluded from the returned id list
without stopping the remaining matches, and `ResumedCount` equals the
length of the id list, which is the number of matches whose resume call
returned no error (at most the number of matches). -/
theorem ResumeByCorrelation_per_match (env : CorrEnv) (ws : List ExecRecord) :
    (env.repoConfigured = true → env.bindOk = true → env.smFound = true →
      env.findResult = Except.ok ws → ws ≠ [] →
      ResumeByCorrelation env =
        { outcome := CorrOutcome.ok (resumeMatches env.resume ws).length
            (resumeMatches env.resume ws),
          resumeAttempts := ws.length })
    ∧ (resumeMatches env.resume ws).length = ws.countP (fun r => (env.resume r).isNone)
    ∧ (resumeMatches env.resume ws).length ≤ ws.length
    ∧ (∀ (r : ExecRecord) (rest : List ExecRecord), (env.resume r).isSome = true →
        resumeMatches env.resume (r :: rest) = resumeMatches env.resume rest)
    ∧ (∀ (r : ExecRecord) (rest : List ExecRecord), env.resume r = none →
        resumeMatches env.resume (r :: rest) =
          r.executionID :: resumeMatches env.resume rest) := by
  refine ⟨?_, resumeMatches_length env.resume ws, ?_, ?_, ?_⟩
  · intro hrepo hbind hsm hfind hne
    simp [ResumeByCorrelation, hrepo, hbind, hsm, hfind,
      List.length_eq_zero.ne.mpr, hne]
  · rw [resumeMatches_length]
    exact List.countP_le_length _
  · intro r rest h
    obtain ⟨e, he⟩ := Option.isSome_iff_exists.mp h
    simp [resumeMatches, he]
  · intro r rest h
    simp [resumeMatches, h]

/-- C4 witness: two waiting executions, one failing resume: the response
reports one resumed id and both matches were attempted. -/
theorem ResumeByCorrelation_per_match_witness :
    ResumeByCorrelation corrEnvTwo =
      { outcome := CorrOutcome.ok 1 ["e1"], resumeAttempts := 2 } := by
  have h := (ResumeByCorrelation_per_match corrEnvTwo [recA, recB]).1
    rfl rfl rfl rfl (by decide)
  rw [h]
  decide

/-- C7: a correlation scan finding zero waiting executions yields the
NotFound response `No waiting executions found` with no resume attempt,
and that response is distinct from the `State machine not found` NotFound
raised earlier when the target definition is missing. -/
theorem ResumeByCorrelation_zero_matches (env env2 : CorrEnv) :
    (env.repoConfigured = true → env.bindOk = true → env.smFound = true →
      env.findResult = Except.ok [] →
      ResumeByCorrelation env =
        { outcome := CorrOutcome.errorResp 404 "No waiting executions found",
          resumeAttempts := 0 })
    ∧ (env2.repoConfigured = true → env2.bindOk = true → env2.smFound = false →
      ResumeByCorrelation env2 =
        { outcome := CorrOutcome.errorResp 404 "State machine not found",
          resumeAttempts := 0 })
    ∧ CorrOutcome.errorResp 404 "No waiting executions found" ≠
        CorrOutcome.errorResp 404 "State machine not found" := by
  refine ⟨?_, ?_, by decide⟩
  · intro hrepo hbind hsm hfind
    simp [ResumeByCorrelation, hrepo, hbind, hsm, hfind]
  · intro hrepo hbind hsm
    simp [ResumeByCorrelation, hrepo, hbind, hsm]

/-- C7 witness: a concrete empty scan yields the zero-match NotFound, a
concrete missing definition the other NotFound. -/
theorem ResumeByCorrelation_zero_matches_witness :
    ResumeByCorrelation corrEnvNone =
      { outcome := CorrOutcome.errorResp 404 "No waiting executions found",
        resumeAttempts := 0 }
    ∧ ResumeByCorrelation corrEnvNoSm =
      { outcome := CorrOutcome.errorResp 404 "State machine not found",
        resumeAttempts := 0 } := by
  obtain ⟨h1, h2, -⟩ := ResumeByCorrelation_zero_matches corrEnvNone corrEnvNoSm
  exact ⟨h1 rfl rfl rfl rfl, h2 rfl rfl rfl⟩

/-- C6: `Stop` before `Start` — on a nil worker, on a worker whose
construction found a collaborator absent (then `NewWorker` yields nil and
`Start` is a no-op returning nil), or on a freshly constructed worker — is
a no-op; `Stop` after `Start` drains the in-flight tasks, leaves the
worker stopped, and `Start` can then run it again. -/
theorem Worker_lifecycle (cfg : WorkerConfig) (qw : QueueWorker) :
    WorkerStop none = none
    ∧ (WorkerStart none = (none, none))
    ∧ (cfg.enableWorker = false ∨ cfg.hasQueueConfig = false ∨
        cfg.hasRepositoryManager = false ∨ cfg.hasBaseExecutor = false →
        NewWorker (some cfg) = none)
    ∧ NewWorker none = none
    ∧ WorkerStop (NewWorker (some cfg)) = NewWorker (some cfg)
    ∧ (WorkerStop (some { queueWorker := some qw }) =
        some { queueWorker := some { phase := WorkerPhase.stopped, inFlight := 0 } })
    ∧ ((WorkerStart
          (WorkerStop (WorkerStart (some { queueWorker := some qw })).1)).1 =
        some { queueWorker := some { phase := WorkerPhase.running, inFlight := 0 } }) := by
  obtain ⟨e, q, r, b⟩ := cfg
  refine ⟨rfl, rfl, ?_, rfl, ?_, rfl, rfl⟩
  · intro h
    cases e <;> cases q <;> cases r <;> cases b <;> simp_all [NewWorker]
  · cases e <;> cases q <;> cases r <;> cases b <;> rfl

/-- C6 witness: with every collaborator present, stopping the freshly
built worker changes nothing, and a start–stop–start cycle ends running
with zero in-flight tasks. -/
theorem Worker_lifecycle_witness :
    WorkerStop (NewWorker (some cfgAll)) = NewWorker (some cfgAll)
    ∧ (WorkerStart (WorkerStop (WorkerStart workerRun3).1)).1 =
      some { queueWorker := some { phase := WorkerPhase.running, inFlight := 0 } } := by
  obtain ⟨-, -, -, -, h5, -, h7⟩ := Worker_lifecycle cfgAll qwRun3
  exact ⟨h5, h7⟩

/-- C8: a batch request whose JSON body omits the filter object passes the
guards, then panics on the unguarded `req.Filter.SourceStateName`
dereference before any dispatch; the `ErrorHandler` middleware recovers
the panic into an HTTP 500 response. -/
theorem ExecuteBatch_nil_filter_panics (env : BatchEnv Nat String)
    (req : ExecuteBatchRequest) :
    env.repoConfigured = true → env.bindOk = true → env.smFound = true →
    req.filter = none →
    (ExecuteBatch env req).outcome = BatchOutcome.panicked
    ∧ (ExecuteBatch env req).dispatchedOpts = none
    ∧ (ExecuteBatch env req).dispatchedExecOpts = none
    ∧ ErrorHandler (ExecuteBatch env req).outcome =
        BatchOutcome.errorResp 500 "Internal Server Error" := by
  intro hrepo hbind hsm hf
  simp [ExecuteBatch, hrepo, hbind, hsm, hf, ErrorHandler]

/-- C8 witness: a concrete filterless request against a healthy
environment panics without dispatching and is converted to HTTP 500. -/
theorem ExecuteBatch_nil_filter_panics_witness :
    (ExecuteBatch batchEnvOk batchReqNoFilter).outcome = BatchOutcome.panicked
    ∧ (ExecuteBatch batchEnvOk batchReqNoFilter).dispatchedOpts = none
    ∧ ErrorHandler (ExecuteBatch batchEnvOk batchReqNoFilter).outcome =
        BatchOutcome.errorResp 500 "Internal Server Error" := by
  obtain ⟨h1, h2, -, h4⟩ :=
    ExecuteBatch_nil_filter_panics batchEnvOk batchReqNoFilter rfl rfl rfl rfl
  exact ⟨h1, h2, h4⟩

/-- C9 (amended): a zero `Concurrency` is replaced by 10 before the batch
options are built and any nonzero value — including a negative one —
passes through unchanged, so the dispatched bound is never zero and is
≥ 1 whenever the requested concurrency is nonnegative; an empty
`NamePrefix` becomes `batch-<unix timestamp>`; the returned batch id is
the effective prefix, `-`, and a second timestamp taken at response
time. -/
theorem ExecuteBatch_defaults (env : BatchEnv Nat String)
    (req : ExecuteBatchRequest) (f : ExecutionFilterRequest) (c : Int) :
    effectiveConcurrency 0 = 10
    ∧ (c ≠ 0 → effectiveConcurrency c = c)
    ∧ effectiveConcurrency c ≠ 0
    ∧ (0 ≤ c → 1 ≤ effectiveConcurrency c)
    ∧ effectiveNamePrefix env.now1 "" = "batch-" ++ toString env.now1
    ∧ (req.namePrefix ≠ "" → effectiveNamePrefix env.now1 req.namePrefix = req.namePrefix)
    ∧ (mkBatchOpts env req).concurrentBatches = effectiveConcurrency req.concurrency
    ∧ (mkBatchOpts env req).namePrefix = effectiveNamePrefix env.now1 req.namePrefix
    ∧ (req.filter = some f → env.repoConfigured = true → env.bindOk = true →
        env.smFound = true →
        (ExecuteBatch env req).dispatchedOpts =
          (ExecuteBatch env req).dispatchedExecOpts.map (fun _ => mkBatchOpts env req))
    ∧ (∀ results : List (PerItemResult String),
        req.filter = some f → env.repoConfigured = true → env.bindOk = true →
        env.smFound = true →
        env.dispatch (buildSourceExecutionFilter env.stateMachineID (some f))
            f.sourceStateName (mkBatchOpts env req)
            (composeExecOpts env.transformerRegistry f.applyUnique f.sourceInputTransformer)
          = Except.ok results →
        (ExecuteBatch env req).outcome = BatchOutcome.ok
          { batchID :=
              effectiveNamePrefix env.now1 req.namePrefix ++ "-" ++ toString env.now2,
            totalEnqueued := (countBatchResults results).1,
            totalFailed := (countBatchResults results).2,
            mode := req.mode }) := by
  refine ⟨rfl, ?_, ?_, ?_, rfl, ?_, rfl, rfl, ?_, ?_⟩
  · intro h
    simp [effectiveConcurrency, h]
  · unfold effectiveConcurrency
    split <;> omega
  · intro h
    unfold effectiveConcurrency
    split <;> omega
  · intro h
    simp [effectiveNamePrefix, h]
  · intro hf hrepo hbind hsm
    simp only [ExecuteBatch, hrepo, hbind, hsm, hf, Bool.not_true, Bool.false_eq_true,
      if_false]
    cases env.dispatch (buildSourceExecutionFilter env.stateMachineID (some f))
        f.sourceStateName (mkBatchOpts env req)
        (composeExecOpts env.transformerRegistry f.applyUnique f.sourceInputTransformer) <;>
      simp
  · intro results hf hrepo hbind hsm hd
    simp only [ExecuteBatch, hrepo, hbind, hsm, hf, Bool.not_true, Bool.false_eq_true,
      if_false, hd]
    rfl

/-- C9 counterexample: a request binding `concurrency = -1` is dispatched
with a concurrency bound of -1, which is not ≥ 1, refuting the claim that
the dispatched bound is always ≥ 1. -/
theorem ExecuteBatch_negative_concurrency :
    (ExecuteBatch batchEnvNeg batchReqNeg).dispatchedOpts =
      some { namePrefix := "p", concurrentBatches := -1, stopOnError := false }
    ∧ (-1 : Int) < 1 := by
  exact ⟨by decide, by decide⟩

/-- C9 witness: a request with `concurrency = 0` and prefix `p` is
dispatched with bound 10 and returns batch id `p-200` at `now2 = 200`. -/
theorem ExecuteBatch_defaults_witness :
    (mkBatchOpts batchEnvOk batchReqOk).concurrentBatches = 10
    ∧ (ExecuteBatch batchEnvOk batchReqOk).outcome = BatchOutcome.ok
        { batchID := "p-200", totalEnqueued := 1, totalFailed := 1, mode := "" } := by
  obtain ⟨h1, -, -, -, -, -, h7, -, -, h10⟩ :=
    ExecuteBatch_defaults batchEnvOk batchReqOk filterReqPlain 0
  refine ⟨by rw [h7]; exact h1, ?_⟩
  have h := h10 [{ error := none }, { error := some "boom" }] rfl rfl rfl rfl rfl
  rw [h]
  decide

/-- C10: `HealthCheck` reports `unhealthy` with HTTP 503 exactly when some
configured service is `down`, which can only be the database probe; a
configured queue is always `up` with no probe; an unconfigured
collaborator is `not_configured` and never makes the overall status
unhealthy on its own. -/
theorem HealthCheck_service_status (env : HealthEnv) :
    ((HealthCheck env).database =
      if env.hasRepo then (if env.listStateMachinesOk then "up" else "down")
      else "not_configured")
    ∧ ((HealthCheck env).queue = if env.hasQueue then "up" else "not_configured")
    ∧ ((HealthCheck env).status = "unhealthy" ↔ (HealthCheck env).database = "down")
    ∧ ((HealthCheck env).statusCode = 503 ↔ (HealthCheck env).status = "unhealthy")
    ∧ ((HealthCheck env).statusCode = 200 ↔ (HealthCheck env).status = "healthy")
    ∧ (HealthCheck env).queue ≠ "down"
    ∧ (env.hasRepo = false →
        (HealthCheck env).status = "healthy" ∧ (HealthCheck env).statusCode = 200) := by
  obtain ⟨r, l, q⟩ := env
  cases r <;> cases l <;> cases q <;> decide

/-- C10 witness: a failing database probe yields `unhealthy`/503; with
both collaborators unconfigured the service is `healthy`/200 and both
entries read `not_configured`. -/
theorem HealthCheck_service_status_witness :
    (HealthCheck { hasRepo := true, listStateMachinesOk := false, hasQueue := false }).status
        = "unhealthy"
    ∧ (HealthCheck { hasRepo := false, listStateMachinesOk := false, hasQueue := false })
        = { statusCode := 200, status := "healthy", database := "not_configured",
            queue := "not_configured" } := by
  have h1 := HealthCheck_service_status
    { hasRepo := true, listStateMachinesOk := false, hasQueue := false }
  have h2 := HealthCheck_service_status
    { hasRepo := false, listStateMachinesOk := false, hasQueue := false }
  exact ⟨h1.2.2.1.mpr (by decide), by decide⟩

end SMGin
